import Mathlib

/-!
Verification of the RFM95W / SX127x LoRa radio driver (src/rfm95w.ts).

The driver is embedded shallowly: the module-level mutable variables
(_inited, _sf, _bwCode, _lastRssi, _lastSnrRaw) become the fields of a
state structure `S`, together with a register file `regs : Nat → Nat`
modelling the chip's writable registers (a write stores the byte, a read
of a driver-written register returns the stored byte).  Registers whose
value is produced by the radio hardware rather than by a driver write
(chip version, IRQ flags, FIFO contents, packet metadata) enter the model
as explicit parameters of the operation that reads them.  Every register
transaction an operation performs is also recorded, in order, in a
`List Txn` log, so that claims about "no register transaction" and about
the order of writes are directly statable.
-/

namespace RFM95W

/-- SX127x register map subset, from src/rfm95w.ts. -/
def REG_FIFO : Nat := 0x00
def REG_OP_MODE : Nat := 0x01
def REG_FRF_MSB : Nat := 0x06
def REG_FRF_MID : Nat := 0x07
def REG_FRF_LSB : Nat := 0x08
def REG_PA_CONFIG : Nat := 0x09
def REG_LNA : Nat := 0x0C
def REG_FIFO_ADDR_PTR : Nat := 0x0D
def REG_FIFO_TX_BASE_ADDR : Nat := 0x0E
def REG_FIFO_RX_BASE_ADDR : Nat := 0x0F
def REG_FIFO_RX_CURRENT_ADDR : Nat := 0x10
def REG_IRQ_FLAGS : Nat := 0x12
def REG_RX_NB_BYTES : Nat := 0x13
def REG_PKT_SNR_VALUE : Nat := 0x19
def REG_PKT_RSSI_VALUE : Nat := 0x1A
def REG_RSSI_VALUE : Nat := 0x1B
def REG_MODEM_CONFIG_1 : Nat := 0x1D
def REG_MODEM_CONFIG_2 : Nat := 0x1E
def REG_PREAMBLE_MSB : Nat := 0x20
def REG_PREAMBLE_LSB : Nat := 0x21
def REG_PAYLOAD_LENGTH : Nat := 0x22
def REG_MODEM_CONFIG_3 : Nat := 0x26
def REG_SYNC_WORD : Nat := 0x39
def REG_DIO_MAPPING_1 : Nat := 0x40
def REG_VERSION : Nat := 0x42
def REG_PA_DAC : Nat := 0x4D

def MODE_LONG_RANGE : Nat := 0x80
def MODE_SLEEP : Nat := 0x00
def MODE_STDBY : Nat := 0x01
def MODE_TX : Nat := 0x03
def MODE_RX_CONTINUOUS : Nat := 0x05

def IRQ_RX_DONE : Nat := 0x40
def IRQ_TX_DONE : Nat := 0x08
def IRQ_PAYLOAD_CRC_ERROR : Nat := 0x20
def IRQ_CLEAR_ALL : Nat := 0xFF

/-- BW lookup table: bandwidth in kHz × 100 (source line 125). -/
def BW_KHZ_X100 : List Nat := [780, 1040, 1560, 2080, 3125, 4170, 6250, 12500, 25000, 50000]

/-- One transaction on the SPI register bus. -/
inductive Txn where
  | read (addr val : Nat)
  | write (addr val : Nat)
deriving DecidableEq, Repr

/-- Driver + chip state: the module-level mutable variables of the source
together with the chip's register file. -/
structure S where
  inited : Bool
  sf : Nat
  bwCode : Nat
  lastRssi : Int
  lastSnrRaw : Nat
  regs : Nat → Nat

/-- State at module load: `_inited = false`, `_sf = 7`, `_bwCode = 7`,
`_lastRssi = 0`, `_lastSnrRaw = 0`; chip registers at their reset values
(modelled as 0 — in particular the DIO mapping register resets to 0x00). -/
def S.init0 : S :=
  { inited := false, sf := 7, bwCode := 7, lastRssi := 0, lastSnrRaw := 0, regs := fun _ => 0 }

/-- writeReg: store the byte in the register file and log the write. -/
def writeReg (s : S) (addr v : Nat) : S × List Txn :=
  ({ s with regs := fun a => if a = addr then v else s.regs a }, [Txn.write addr v])

/-- Read-modify-write of a single register: `writeReg(addr, f(readReg(addr)))`. -/
def rmwReg (s : S) (addr : Nat) (f : Nat → Nat) : S × List Txn :=
  ({ s with regs := fun a => if a = addr then f (s.regs addr) else s.regs a },
   [Txn.read addr (s.regs addr), Txn.write addr (f (s.regs addr))])

/-- Read of a hardware-valued register: the value is supplied by the
environment, the state is unchanged, the read is logged. -/
def readHw (s : S) (addr v : Nat) : S × List Txn :=
  (s, [Txn.read addr v])

/-- Sequencing of two logging operations, concatenating their logs. -/
def seq (a : S × List Txn) (f : S → S × List Txn) : S × List Txn :=
  ((f a.1).1, a.2 ++ (f a.1).2)

/-- burstWrite: stream each payload byte to the register (source lines 165-170). -/
def burstWrite (s : S) (addr : Nat) (buf : List Nat) : S × List Txn :=
  match buf with
  | [] => (s, [])
  | b :: rest => seq (writeReg s addr b) (fun s1 => burstWrite s1 addr rest)

/-- burstRead: `len` bytes streamed from the register; the data comes from
the hardware (source lines 172-179). -/
def burstRead (s : S) (addr len : Nat) (data : List Nat) : S × List Txn :=
  (s, (List.range len).map (fun i => Txn.read addr (data.getD i 0)))

/-- setMode (source lines 188-190). -/
def setMode (s : S) (mode : Nat) : S × List Txn :=
  writeReg s REG_OP_MODE (MODE_LONG_RANGE ||| mode)

/-- The 24-bit frequency word: `floor(mhz * 1e6 * 2^19 / 32e6)` (source
lines 192-195).  For the integral band values used by the driver the
double-precision evaluation in the source is exact, so Nat division is a
faithful embedding. -/
def mhzToFrf (mhz : Nat) : Nat :=
  mhz * 1000000 * 524288 / 32000000

/-- setFrequencyMHz (source lines 192-199). -/
def setFrequencyMHz (s : S) (mhz : Nat) : S × List Txn :=
  seq (writeReg s REG_FRF_MSB ((mhzToFrf mhz >>> 16) &&& 0xFF)) (fun s1 =>
  seq (writeReg s1 REG_FRF_MID ((mhzToFrf mhz >>> 8) &&& 0xFF)) (fun s2 =>
  writeReg s2 REG_FRF_LSB (mhzToFrf mhz &&& 0xFF)))

/-- The LDRO condition `((1 << _sf) * 100) > (16 * BW_KHZ_X100[_bwCode])`
(source line 202).  An out-of-range index yields `undefined` in the
source, making the comparison false, hence the `none` branch. -/
def ldroNeeded (sf bwCode : Nat) : Bool :=
  match BW_KHZ_X100.get? bwCode with
  | some bw => decide ((1 <<< sf) * 100 > 16 * bw)
  | none => false

/-- applyLdro (source lines 201-205): set or clear bit 3 of modem config 3. -/
def applyLdro (s : S) : S × List Txn :=
  rmwReg s REG_MODEM_CONFIG_3
    (fun v => if ldroNeeded s.sf s.bwCode then v ||| 0x08 else v &&& 0xF7)

/-- Frequency band (the `Band` enum of the source). -/
inductive Band where
  | EU868
  | AU915
deriving DecidableEq, Repr

/-- The MHz value `init` passes to `setFrequencyMHz` for each band. -/
def Band.mhz : Band → Nat
  | .EU868 => 868
  | .AU915 => 915

/-- configRadioDefaults (source lines 207-245). -/
def configRadioDefaults (s : S) (band : Band) : S × List Txn :=
  seq (writeReg s REG_FIFO_TX_BASE_ADDR 0x00) (fun s1 =>
  seq (writeReg s1 REG_FIFO_RX_BASE_ADDR 0x00) (fun s2 =>
  seq (writeReg s2 REG_FIFO_ADDR_PTR 0x00) (fun s3 =>
  seq (writeReg s3 REG_PREAMBLE_MSB 0x00) (fun s4 =>
  seq (writeReg s4 REG_PREAMBLE_LSB 0x08) (fun s5 =>
  seq (writeReg s5 REG_SYNC_WORD 0x34) (fun s6 =>
  seq (setFrequencyMHz s6 band.mhz) (fun s7 =>
  seq (writeReg s7 REG_MODEM_CONFIG_1 0x72) (fun s8 =>
  seq (writeReg s8 REG_MODEM_CONFIG_2 0x74) (fun s9 =>
  seq (writeReg s9 REG_MODEM_CONFIG_3 0x04) (fun s10 =>
  seq (rmwReg s10 REG_LNA (fun v => v ||| 0x03)) (fun s11 =>
  seq (writeReg s11 REG_PA_CONFIG (0x80 ||| 0x0F)) (fun s12 =>
  seq (writeReg s12 REG_PA_DAC 0x84) (fun s13 =>
  writeReg s13 REG_DIO_MAPPING_1 0x00)))))))))))))

/-- setDio0Mapping (source lines 252-257). -/
def setDio0Mapping (s : S) (mapping : Nat) : S × List Txn :=
  rmwReg s REG_DIO_MAPPING_1 (fun v => (v &&& 0x3F) ||| ((mapping &&& 0x03) <<< 6))

/-- init (source lines 313-343).  `chipVersion` is the byte the version
register read returns.  `resetChip` pulses the RST pin, returning the
chip's registers to their reset values. -/
def init (s : S) (band : Band) (chipVersion : Nat) : S × List Txn :=
  let s0 : S := { s with regs := fun _ => 0 }
  if chipVersion ≠ 0x12 then
    ({ s0 with inited := false }, [Txn.read REG_VERSION chipVersion])
  else
    let r :=
      seq (setMode s0 MODE_SLEEP) (fun s1 =>
      seq (setMode s1 MODE_STDBY) (fun s2 =>
      seq (configRadioDefaults s2 band) (fun s3 =>
      seq (writeReg s3 REG_IRQ_FLAGS IRQ_CLEAR_ALL) (fun s4 =>
      seq (setMode s4 MODE_RX_CONTINUOUS) (fun s5 =>
      seq (setDio0Mapping s5 0) (fun s6 =>
      seq (writeReg s6 REG_IRQ_FLAGS IRQ_CLEAR_ALL) (fun s7 =>
      setMode s7 MODE_RX_CONTINUOUS)))))))
    ({ r.1 with inited := true }, Txn.read REG_VERSION chipVersion :: r.2)

/-- sendBuffer (source lines 367-384). -/
def sendBuffer (s : S) (buf : List Nat) : S × List Txn :=
  if s.inited = false then (s, [])
  else
    seq (setMode s MODE_STDBY) (fun s1 =>
    seq (writeReg s1 REG_IRQ_FLAGS IRQ_CLEAR_ALL) (fun s2 =>
    seq (setDio0Mapping s2 1) (fun s3 =>
    seq (writeReg s3 REG_FIFO_ADDR_PTR 0x00) (fun s4 =>
    seq (burstWrite s4 REG_FIFO buf) (fun s5 =>
    seq (writeReg s5 REG_PAYLOAD_LENGTH buf.length) (fun s6 =>
    setMode s6 MODE_TX))))))

/-- sendString (source lines 354-358); the string is modelled by its UTF-8
byte encoding. -/
def sendString (s : S) (bytes : List Nat) : S × List Txn :=
  if s.inited = false then (s, []) else sendBuffer s bytes

/-- setTxPower (source lines 454-464). -/
def setTxPower (s : S) (dBm : Int) : S × List Txn :=
  if s.inited = false then (s, [])
  else if dBm = 20 then
    seq (writeReg s REG_PA_CONFIG (0x80 ||| 0x0F)) (fun s1 =>
    writeReg s1 REG_PA_DAC 0x87)
  else
    seq (writeReg s REG_PA_CONFIG (0x80 ||| (max 0 (min 15 (dBm - 2))).toNat)) (fun s1 =>
    writeReg s1 REG_PA_DAC 0x84)

/-- setSpreadingFactor (source lines 475-481).  The source performs no
runtime range check on `sf`. -/
def setSpreadingFactor (s : S) (sf : Nat) : S × List Txn :=
  if s.inited = false then (s, [])
  else
    let su : S := { s with sf := sf }
    seq (rmwReg su REG_MODEM_CONFIG_2 (fun v => (v &&& 0x0F) ||| (sf <<< 4))) (fun s1 =>
    applyLdro s1)

/-- setBandwidth (source lines 491-497). -/
def setBandwidth (s : S) (bw : Nat) : S × List Txn :=
  if s.inited = false then (s, [])
  else
    let su : S := { s with bwCode := bw }
    seq (rmwReg su REG_MODEM_CONFIG_1 (fun v => (v &&& 0x0F) ||| (bw <<< 4))) (fun s1 =>
    applyLdro s1)

/-- setCodingRate (source lines 508-512). -/
def setCodingRate (s : S) (cr : Nat) : S × List Txn :=
  if s.inited = false then (s, [])
  else rmwReg s REG_MODEM_CONFIG_1 (fun v => (v &&& 0xF1) ||| (cr <<< 1))

/-- setSyncWord (source lines 523-526). -/
def setSyncWord (s : S) (word : Nat) : S × List Txn :=
  if s.inited = false then (s, []) else writeReg s REG_SYNC_WORD word

/-- receivedSignalStrength (source lines 415-417): pure read of `_lastRssi`,
no register transaction, state unchanged. -/
def receivedSignalStrength (s : S) : Int × S × List Txn :=
  (s.lastRssi, s, [])

/-- The SNR decode `(raw > 127 ? raw - 256 : raw) / 4` (source lines 428-429). -/
def snrDecode (raw : Nat) : Rat :=
  (((if raw > 127 then (raw : Int) - 256 else (raw : Int)) : Int) : Rat) / 4

/-- receivedSnr (source lines 427-430): pure decode of `_lastSnrRaw`,
no register transaction, state unchanged. -/
def receivedSnr (s : S) : Rat × S × List Txn :=
  (snrDecode s.lastSnrRaw, s, [])

/-- channelRssi (source lines 441-444); `hwRssi` is the byte the
instantaneous RSSI register read returns. -/
def channelRssi (s : S) (hwRssi : Nat) : Int × S × List Txn :=
  if s.inited = false then (0, s, [])
  else ((hwRssi : Int) - 157, s, [Txn.read REG_RSSI_VALUE hwRssi])

/-- The hardware-provided bytes the deferred DIO0 handler reads: the IRQ
flag byte and, on the receive path, the FIFO pointer, length, payload and
packet metadata registers. -/
structure HwRx where
  flags : Nat
  rxCurrentAddr : Nat
  rxNbBytes : Nat
  fifoData : List Nat
  pktRssi : Nat
  pktSnrRaw : Nat
deriving DecidableEq, Repr

/-- Result of one run of the deferred DIO0 handler: the new state, the
transaction log, whether the receive handler was scheduled, and whether
the send-completion event (APP_TX) was raised. -/
structure Dio0Result where
  s : S
  log : List Txn
  rxHandlerInvoked : Bool
  sentEventRaised : Bool

/-- The TxDone branch of the handler (source lines 296-301), reached only
when the RxDone-with-CRC-error early return was not taken. -/
def txDonePath (s : S) (l : List Txn) (invoked : Bool) (flags : Nat) : Dio0Result :=
  if flags &&& IRQ_TX_DONE ≠ 0 then
    let r :=
      seq (writeReg s REG_IRQ_FLAGS IRQ_CLEAR_ALL) (fun s1 =>
      seq (setDio0Mapping s1 0) (fun s2 =>
      setMode s2 MODE_RX_CONTINUOUS))
    ⟨r.1, l ++ r.2, invoked, true⟩
  else ⟨s, l, invoked, false⟩

/-- The CRC-clean receive sequence of the handler (source lines 278-292):
datasheet FIFO read sequence, metadata stores, flag clear. -/
def rxPath (s : S) (hw : HwRx) : S × List Txn :=
  seq (readHw s REG_FIFO_RX_CURRENT_ADDR hw.rxCurrentAddr) (fun s1 =>
  seq (writeReg s1 REG_FIFO_ADDR_PTR hw.rxCurrentAddr) (fun s2 =>
  seq (readHw s2 REG_RX_NB_BYTES hw.rxNbBytes) (fun s3 =>
  seq (burstRead s3 REG_FIFO hw.rxNbBytes hw.fifoData) (fun s4 =>
  seq (readHw s4 REG_PKT_RSSI_VALUE hw.pktRssi) (fun s5 =>
  seq (readHw s5 REG_PKT_SNR_VALUE hw.pktSnrRaw) (fun s6 =>
  writeReg { s6 with lastRssi := (hw.pktRssi : Int) - 157,
                     lastSnrRaw := hw.pktSnrRaw }
    REG_IRQ_FLAGS IRQ_CLEAR_ALL))))))

/-- The deferred DIO0 handler (source lines 268-302).  `hasRxHandler`
states whether `onReceivedString` registered a handler. -/
def onDio0 (s : S) (hw : HwRx) (hasRxHandler : Bool) : Dio0Result :=
  let l0 : List Txn := [Txn.read REG_IRQ_FLAGS hw.flags]
  if hw.flags &&& IRQ_RX_DONE ≠ 0 then
    if hw.flags &&& IRQ_PAYLOAD_CRC_ERROR ≠ 0 then
      -- CRC error: clear the flags and return (the TxDone check is skipped)
      let r := writeReg s REG_IRQ_FLAGS IRQ_CLEAR_ALL
      ⟨r.1, l0 ++ r.2, false, false⟩
    else
      txDonePath (rxPath s hw).1 (l0 ++ (rxPath s hw).2) hasRxHandler hw.flags
  else
    txDonePath s l0 false hw.flags

/-- One externally triggered driver operation, with the hardware-provided
read values as parameters. -/
inductive Op where
  | opInit (band : Band) (chipVersion : Nat)
  | opSendString (bytes : List Nat)
  | opSendBuffer (buf : List Nat)
  | opDio0 (hw : HwRx) (hasRxHandler : Bool)
  | opSetTxPower (dBm : Int)
  | opSetSpreadingFactor (sf : Nat)
  | opSetBandwidth (bw : Nat)
  | opSetCodingRate (cr : Nat)
  | opSetSyncWord (word : Nat)
  | opChannelRssi (hwRssi : Nat)
deriving DecidableEq, Repr

/-- Run one operation, yielding the new state and the transaction log. -/
def runOp (s : S) : Op → S × List Txn
  | .opInit band v => init s band v
  | .opSendString bytes => sendString s bytes
  | .opSendBuffer buf => sendBuffer s buf
  | .opDio0 hw h => ((onDio0 s hw h).s, (onDio0 s hw h).log)
  | .opSetTxPower dBm => setTxPower s dBm
  | .opSetSpreadingFactor sf => setSpreadingFactor s sf
  | .opSetBandwidth bw => setBandwidth s bw
  | .opSetCodingRate cr => setCodingRate s cr
  | .opSetSyncWord w => setSyncWord s w
  | .opChannelRssi v => ((channelRssi s v).2.1, (channelRssi s v).2.2)

/-- Run a sequence of operations from a start state. -/
def runOps (s : S) (ops : List Op) : S :=
  ops.foldl (fun t op => (runOp t op).1) s

/-- A driver state is reachable if some operation sequence produces it
from the module-load state. -/
def Reachable (s : S) : Prop :=
  ∃ ops : List Op, runOps S.init0 ops = s

/-- Whether an operation is a successful (CRC-clean) receive interrupt —
the only operation that stores new RSSI/SNR values. -/
def isSuccessfulRx : Op → Bool
  | .opDio0 hw _ => (hw.flags &&& IRQ_RX_DONE != 0) && (hw.flags &&& IRQ_PAYLOAD_CRC_ERROR == 0)
  | _ => false

/-- The spec-level radio state machine (§3 of the spec), read off the
driver state: the mode last written to the op-mode register, or
Uninitialized before a successful init. -/
inductive RadioState where
  | Uninitialized
  | Sleep
  | Standby
  | Receiving
  | Transmitting
deriving DecidableEq, Repr

def radioState (s : S) : RadioState :=
  if s.inited = false then .Uninitialized
  else if s.regs REG_OP_MODE = MODE_LONG_RANGE ||| MODE_TX then .Transmitting
  else if s.regs REG_OP_MODE = MODE_LONG_RANGE ||| MODE_RX_CONTINUOUS then .Receiving
  else if s.regs REG_OP_MODE = MODE_LONG_RANGE ||| MODE_STDBY then .Standby
  else .Sleep

/-- The DIO0 interrupt-routing selector: bits 7..6 of the DIO mapping
register (0 = RxDone, 1 = TxDone). -/
def dio0Mapping (s : S) : Nat :=
  (s.regs REG_DIO_MAPPING_1 >>> 6) &&& 0x03

/-- Two's-complement reading of a byte, the spec-side decode for the SNR
register (§4.8 of the spec). -/
def twosComplement8 (n : Nat) : Int :=
  ((n : Int) + 128) % 256 - 128

/-- The interrupt-routing invariant of §3 of the spec: the DIO0 routing
selects TxDone only while the radio is Transmitting. -/
def MappingInv (s : S) : Prop :=
  dio0Mapping s = 1 → radioState s = RadioState.Transmitting

/-- A successfully initialized device (chip id 0x12), used as the concrete
instantiation point for the hypothesis-bearing theorems. -/
def sInit : S := (init S.init0 .EU868 0x12).1

/-- The initialized device after a send request: mid-transmission. -/
def sTx : S := (sendBuffer sInit [1, 2, 3]).1

/-- Status byte with RxDone, payload-CRC-error and TxDone all set. -/
def hwCrcTx : HwRx :=
  { flags := 0x68, rxCurrentAddr := 0, rxNbBytes := 0, fifoData := [],
    pktRssi := 0, pktSnrRaw := 0 }

/-- Status byte with only TxDone set. -/
def hwTxOnly : HwRx :=
  { flags := 0x08, rxCurrentAddr := 0, rxNbBytes := 0, fifoData := [],
    pktRssi := 0, pktSnrRaw := 0 }

/-- Status byte with RxDone and payload-CRC-error set (corrupted packet). -/
def hwRxCrc : HwRx :=
  { flags := 0x60, rxCurrentAddr := 0, rxNbBytes := 2, fifoData := [1, 2],
    pktRssi := 80, pktSnrRaw := 8 }

/-- Status byte with RxDone and TxDone both set, no CRC error. -/
def hwRxTx : HwRx :=
  { flags := 0x48, rxCurrentAddr := 0, rxNbBytes := 1, fifoData := [7],
    pktRssi := 60, pktSnrRaw := 4 }

/-! ### Bitwise helper lemmas -/

theorem and_or_right (a b c : Nat) : (a ||| b) &&& c = (a &&& c) ||| (b &&& c) := by
  apply Nat.eq_of_testBit_eq
  intro i
  simp only [Nat.testBit_and, Nat.testBit_or]
  cases a.testBit i <;> cases b.testBit i <;> cases c.testBit i <;> rfl

theorem or_shiftRight (a b k : Nat) : (a ||| b) >>> k = (a >>> k) ||| (b >>> k) := by
  apply Nat.eq_of_testBit_eq
  intro i
  simp [Nat.testBit_shiftRight, Nat.testBit_or]

theorem and_mask_shiftRight (v m k : Nat) (h : m < 2 ^ k) : (v &&& m) >>> k = 0 := by
  rw [Nat.shiftRight_eq_div_pow]
  exact Nat.div_eq_of_lt (lt_of_le_of_lt Nat.and_le_right h)

theorem shiftLeft_shiftRight_self (y k : Nat) : (y <<< k) >>> k = y := by
  rw [Nat.shiftLeft_eq, Nat.shiftRight_eq_div_pow]
  exact Nat.mul_div_cancel y (Nat.pos_pow_of_pos k (by norm_num))

theorem shiftLeft4_and_15 (y : Nat) : (y <<< 4) &&& 0x0F = 0 := by
  apply Nat.eq_of_testBit_eq
  intro i
  simp only [Nat.testBit_and, Nat.testBit_shiftLeft, Nat.zero_testBit]
  rcases Nat.lt_or_ge i 4 with h | h
  · have : ¬ (4 ≤ i) := Nat.not_le.mpr h
    simp [this]
  · have h15 : Nat.testBit 0x0F i = false :=
      Nat.testBit_lt_two_pow (lt_of_lt_of_le (by norm_num)
        (Nat.pow_le_pow_right (by norm_num) h))
    simp [h15]

theorem or8_and_f7 (v : Nat) : (v ||| 8) &&& 0xF7 = v &&& 0xF7 := by
  rw [and_or_right, show (8 : Nat) &&& 0xF7 = 0 from rfl, Nat.or_zero]

theorem andf7_and_f7 (v : Nat) : (v &&& 0xF7) &&& 0xF7 = v &&& 0xF7 := by
  rw [Nat.and_assoc, show (0xF7 : Nat) &&& 0xF7 = 0xF7 from rfl]

theorem testBit3_or8 (v : Nat) : (v ||| 8).testBit 3 = true := by
  rw [Nat.testBit_or]
  simp [show Nat.testBit 8 3 = true from rfl]

theorem testBit3_andf7 (v : Nat) : (v &&& 0xF7).testBit 3 = false := by
  rw [Nat.testBit_and]
  simp [show Nat.testBit 0xF7 3 = false from rfl]

/-- Upper nibble of `(v &&& 0x0F) ||| (x <<< 4)` is `x`. -/
theorem nibble_hi (v x : Nat) : ((v &&& 0x0F) ||| (x <<< 4)) >>> 4 = x := by
  rw [or_shiftRight, and_mask_shiftRight v 0x0F 4 (by norm_num),
    shiftLeft_shiftRight_self, Nat.zero_or]

/-- Lower nibble of `(v &&& 0x0F) ||| (x <<< 4)` is the lower nibble of `v`. -/
theorem nibble_lo (v x : Nat) : ((v &&& 0x0F) ||| (x <<< 4)) &&& 0x0F = v &&& 0x0F := by
  rw [and_or_right, shiftLeft4_and_15, Nat.or_zero, Nat.and_assoc]
  norm_num

/-- The value `setDio0Mapping _ 0` writes selects routing 0 (RxDone). -/
theorem mapping_bits_zero (v : Nat) :
    (((v &&& 0x3F) ||| ((0 &&& 0x03) <<< 6)) >>> 6) &&& 0x03 = 0 := by
  have h0 : ((0 &&& 0x03) <<< 6) = 0 := rfl
  rw [h0, Nat.or_zero, and_mask_shiftRight v 0x3F 6 (by norm_num)]
  rfl

/-! ### Projection lemmas for the state-passing combinators -/

@[simp] theorem seq_fst (a : S × List Txn) (f : S → S × List Txn) :
    (seq a f).1 = (f a.1).1 := rfl

@[simp] theorem writeReg_fst_inited (s : S) (addr v : Nat) :
    (writeReg s addr v).1.inited = s.inited := rfl

@[simp] theorem writeReg_fst_sf (s : S) (addr v : Nat) :
    (writeReg s addr v).1.sf = s.sf := rfl

@[simp] theorem writeReg_fst_bwCode (s : S) (addr v : Nat) :
    (writeReg s addr v).1.bwCode = s.bwCode := rfl

@[simp] theorem writeReg_fst_lastRssi (s : S) (addr v : Nat) :
    (writeReg s addr v).1.lastRssi = s.lastRssi := rfl

@[simp] theorem writeReg_fst_lastSnrRaw (s : S) (addr v : Nat) :
    (writeReg s addr v).1.lastSnrRaw = s.lastSnrRaw := rfl

@[simp] theorem writeReg_fst_regs (s : S) (addr v a : Nat) :
    (writeReg s addr v).1.regs a = if a = addr then v else s.regs a := rfl

@[simp] theorem rmwReg_fst_inited (s : S) (addr : Nat) (f : Nat → Nat) :
    (rmwReg s addr f).1.inited = s.inited := rfl

@[simp] theorem rmwReg_fst_sf (s : S) (addr : Nat) (f : Nat → Nat) :
    (rmwReg s addr f).1.sf = s.sf := rfl

@[simp] theorem rmwReg_fst_bwCode (s : S) (addr : Nat) (f : Nat → Nat) :
    (rmwReg s addr f).1.bwCode = s.bwCode := rfl

@[simp] theorem rmwReg_fst_lastRssi (s : S) (addr : Nat) (f : Nat → Nat) :
    (rmwReg s addr f).1.lastRssi = s.lastRssi := rfl

@[simp] theorem rmwReg_fst_lastSnrRaw (s : S) (addr : Nat) (f : Nat → Nat) :
    (rmwReg s addr f).1.lastSnrRaw = s.lastSnrRaw := rfl

@[simp] theorem rmwReg_fst_regs (s : S) (addr : Nat) (f : Nat → Nat) (a : Nat) :
    (rmwReg s addr f).1.regs a = if a = addr then f (s.regs addr) else s.regs a := rfl

@[simp] theorem readHw_fst (s : S) (addr v : Nat) : (readHw s addr v).1 = s := rfl

@[simp] theorem burstRead_fst (s : S) (addr len : Nat) (data : List Nat) :
    (burstRead s addr len data).1 = s := rfl

@[simp] theorem burstWrite_fst_inited (addr : Nat) (buf : List Nat) (s : S) :
    (burstWrite s addr buf).1.inited = s.inited := by
  induction buf generalizing s with
  | nil => rfl
  | cons b rest ih => simp [burstWrite, ih]

@[simp] theorem burstWrite_fst_sf (addr : Nat) (buf : List Nat) (s : S) :
    (burstWrite s addr buf).1.sf = s.sf := by
  induction buf generalizing s with
  | nil => rfl
  | cons b rest ih => simp [burstWrite, ih]

@[simp] theorem burstWrite_fst_bwCode (addr : Nat) (buf : List Nat) (s : S) :
    (burstWrite s addr buf).1.bwCode = s.bwCode := by
  induction buf generalizing s with
  | nil => rfl
  | cons b rest ih => simp [burstWrite, ih]

@[simp] theorem burstWrite_fst_lastRssi (addr : Nat) (buf : List Nat) (s : S) :
    (burstWrite s addr buf).1.lastRssi = s.lastRssi := by
  induction buf generalizing s with
  | nil => rfl
  | cons b rest ih => simp [burstWrite, ih]

@[simp] theorem burstWrite_fst_lastSnrRaw (addr : Nat) (buf : List Nat) (s : S) :
    (burstWrite s addr buf).1.lastSnrRaw = s.lastSnrRaw := by
  induction buf generalizing s with
  | nil => rfl
  | cons b rest ih => simp [burstWrite, ih]

theorem burstWrite_fst_regs_ne (addr : Nat) (buf : List Nat) (s : S) (a : Nat)
    (h : a ≠ addr) : (burstWrite s addr buf).1.regs a = s.regs a := by
  induction buf generalizing s with
  | nil => rfl
  | cons b rest ih => simp [burstWrite, ih, h]

/-! ### Frame lemmas: which parts of the state each operation leaves alone -/

theorem setTxPower_frame (s : S) (d : Int) :
    (setTxPower s d).1.inited = s.inited
  ∧ (setTxPower s d).1.regs REG_OP_MODE = s.regs REG_OP_MODE
  ∧ (setTxPower s d).1.regs REG_DIO_MAPPING_1 = s.regs REG_DIO_MAPPING_1
  ∧ (setTxPower s d).1.lastRssi = s.lastRssi
  ∧ (setTxPower s d).1.lastSnrRaw = s.lastSnrRaw := by
  unfold setTxPower
  split
  · simp
  · split <;>
      simp [REG_OP_MODE, REG_DIO_MAPPING_1, REG_PA_CONFIG, REG_PA_DAC]

theorem setSpreadingFactor_frame (s : S) (sf : Nat) :
    (setSpreadingFactor s sf).1.inited = s.inited
  ∧ (setSpreadingFactor s sf).1.regs REG_OP_MODE = s.regs REG_OP_MODE
  ∧ (setSpreadingFactor s sf).1.regs REG_DIO_MAPPING_1 = s.regs REG_DIO_MAPPING_1
  ∧ (setSpreadingFactor s sf).1.lastRssi = s.lastRssi
  ∧ (setSpreadingFactor s sf).1.lastSnrRaw = s.lastSnrRaw := by
  unfold setSpreadingFactor
  split
  · simp
  · simp [applyLdro, REG_OP_MODE, REG_DIO_MAPPING_1, REG_MODEM_CONFIG_2,
      REG_MODEM_CONFIG_3]

theorem setBandwidth_frame (s : S) (bw : Nat) :
    (setBandwidth s bw).1.inited = s.inited
  ∧ (setBandwidth s bw).1.regs REG_OP_MODE = s.regs REG_OP_MODE
  ∧ (setBandwidth s bw).1.regs REG_DIO_MAPPING_1 = s.regs REG_DIO_MAPPING_1
  ∧ (setBandwidth s bw).1.lastRssi = s.lastRssi
  ∧ (setBandwidth s bw).1.lastSnrRaw = s.lastSnrRaw := by
  unfold setBandwidth
  split
  · simp
  · simp [applyLdro, REG_OP_MODE, REG_DIO_MAPPING_1, REG_MODEM_CONFIG_1,
      REG_MODEM_CONFIG_3]

theorem setCodingRate_frame (s : S) (cr : Nat) :
    (setCodingRate s cr).1.inited = s.inited
  ∧ (setCodingRate s cr).1.regs REG_OP_MODE = s.regs REG_OP_MODE
  ∧ (setCodingRate s cr).1.regs REG_DIO_MAPPING_1 = s.regs REG_DIO_MAPPING_1
  ∧ (setCodingRate s cr).1.lastRssi = s.lastRssi
  ∧ (setCodingRate s cr).1.lastSnrRaw = s.lastSnrRaw := by
  unfold setCodingRate
  split
  · simp
  · simp [REG_OP_MODE, REG_DIO_MAPPING_1, REG_MODEM_CONFIG_1]

theorem setSyncWord_frame (s : S) (w : Nat) :
    (setSyncWord s w).1.inited = s.inited
  ∧ (setSyncWord s w).1.regs REG_OP_MODE = s.regs REG_OP_MODE
  ∧ (setSyncWord s w).1.regs REG_DIO_MAPPING_1 = s.regs REG_DIO_MAPPING_1
  ∧ (setSyncWord s w).1.lastRssi = s.lastRssi
  ∧ (setSyncWord s w).1.lastSnrRaw = s.lastSnrRaw := by
  unfold setSyncWord
  split
  · simp
  · simp [REG_OP_MODE, REG_DIO_MAPPING_1, REG_SYNC_WORD]

theorem sendBuffer_metrics (s : S) (buf : List Nat) :
    (sendBuffer s buf).1.inited = s.inited
  ∧ (sendBuffer s buf).1.lastRssi = s.lastRssi
  ∧ (sendBuffer s buf).1.lastSnrRaw = s.lastSnrRaw := by
  unfold sendBuffer
  split
  · simp
  · simp [setMode, setDio0Mapping]

theorem sendBuffer_mode (s : S) (buf : List Nat) (h : s.inited = true) :
    (sendBuffer s buf).1.regs REG_OP_MODE = MODE_LONG_RANGE ||| MODE_TX := by
  simp [sendBuffer, h, setMode]

theorem sendString_eq (s : S) (bytes : List Nat) :
    sendString s bytes = sendBuffer s bytes := by
  unfold sendString sendBuffer
  split <;> simp_all

theorem init_metrics (s : S) (band : Band) (v : Nat) :
    (init s band v).1.lastRssi = s.lastRssi
  ∧ (init s band v).1.lastSnrRaw = s.lastSnrRaw := by
  unfold init
  split
  · simp
  · simp [setMode, configRadioDefaults, setFrequencyMHz, setDio0Mapping]

theorem init_mapping_zero (s : S) (band : Band) (v : Nat) :
    dio0Mapping (init s band v).1 = 0 := by
  unfold init dio0Mapping
  split
  · simp
  · simp [seq, setMode, writeReg, setDio0Mapping, rmwReg, configRadioDefaults,
      setFrequencyMHz, REG_OP_MODE, REG_DIO_MAPPING_1, REG_IRQ_FLAGS,
      REG_FIFO_TX_BASE_ADDR, REG_FIFO_RX_BASE_ADDR, REG_FIFO_ADDR_PTR,
      REG_PREAMBLE_MSB, REG_PREAMBLE_LSB, REG_SYNC_WORD, REG_FRF_MSB, REG_FRF_MID,
      REG_FRF_LSB, REG_MODEM_CONFIG_1, REG_MODEM_CONFIG_2, REG_MODEM_CONFIG_3,
      REG_LNA, REG_PA_CONFIG, REG_PA_DAC]

theorem rxPath_frame (s : S) (hw : HwRx) :
    (rxPath s hw).1.inited = s.inited
  ∧ (rxPath s hw).1.regs REG_OP_MODE = s.regs REG_OP_MODE
  ∧ (rxPath s hw).1.regs REG_DIO_MAPPING_1 = s.regs REG_DIO_MAPPING_1 := by
  simp [rxPath, REG_OP_MODE, REG_DIO_MAPPING_1, REG_FIFO_ADDR_PTR, REG_IRQ_FLAGS]

theorem rxPath_metrics (s : S) (hw : HwRx) :
    (rxPath s hw).1.lastRssi = (hw.pktRssi : Int) - 157
  ∧ (rxPath s hw).1.lastSnrRaw = hw.pktSnrRaw := by
  simp [rxPath]

theorem txDonePath_not_taken (s : S) (l : List Txn) (inv : Bool) (flags : Nat)
    (h : flags &&& IRQ_TX_DONE = 0) :
    txDonePath s l inv flags = ⟨s, l, inv, false⟩ := by
  simp [txDonePath, h]

theorem txDonePath_taken (s : S) (l : List Txn) (inv : Bool) (flags : Nat)
    (h : flags &&& IRQ_TX_DONE ≠ 0) :
    (txDonePath s l inv flags).s.regs REG_OP_MODE = MODE_LONG_RANGE ||| MODE_RX_CONTINUOUS
  ∧ dio0Mapping (txDonePath s l inv flags).s = 0
  ∧ (txDonePath s l inv flags).s.inited = s.inited
  ∧ (txDonePath s l inv flags).s.lastRssi = s.lastRssi
  ∧ (txDonePath s l inv flags).s.lastSnrRaw = s.lastSnrRaw
  ∧ (txDonePath s l inv flags).rxHandlerInvoked = inv
  ∧ (txDonePath s l inv flags).sentEventRaised = true := by
  unfold txDonePath
  rw [if_pos h]
  refine ⟨?_, ?_, ?_, ?_, ?_, rfl, rfl⟩
  · simp [setMode, setDio0Mapping, REG_OP_MODE, REG_DIO_MAPPING_1, REG_IRQ_FLAGS]
  · simp only [dio0Mapping, seq_fst]
    simp [setMode, setDio0Mapping, REG_OP_MODE, REG_DIO_MAPPING_1, REG_IRQ_FLAGS]
    rw [and_mask_shiftRight _ 0x3F 6 (by norm_num)]
    decide
  · simp [setMode, setDio0Mapping]
  · simp [setMode, setDio0Mapping]
  · simp [setMode, setDio0Mapping]

theorem txDonePath_log (s : S) (l : List Txn) (inv : Bool) (flags : Nat)
    (h : flags &&& IRQ_TX_DONE ≠ 0) :
    (txDonePath s l inv flags).log
      = l ++ [Txn.write REG_IRQ_FLAGS IRQ_CLEAR_ALL,
              Txn.read REG_DIO_MAPPING_1 (s.regs REG_DIO_MAPPING_1),
              Txn.write REG_DIO_MAPPING_1
                ((s.regs REG_DIO_MAPPING_1 &&& 0x3F) ||| ((0 &&& 0x03) <<< 6)),
              Txn.write REG_OP_MODE (MODE_LONG_RANGE ||| MODE_RX_CONTINUOUS)] := by
  unfold txDonePath
  rw [if_pos h]
  simp [seq, setMode, setDio0Mapping, rmwReg, writeReg, REG_DIO_MAPPING_1, REG_IRQ_FLAGS]

/-- Full characterization of the CRC-error early return (source lines 273-276). -/
theorem onDio0_crcError (s : S) (hw : HwRx) (hrh : Bool)
    (hrx : hw.flags &&& IRQ_RX_DONE ≠ 0)
    (hcrc : hw.flags &&& IRQ_PAYLOAD_CRC_ERROR ≠ 0) :
    onDio0 s hw hrh
      = ⟨(writeReg s REG_IRQ_FLAGS IRQ_CLEAR_ALL).1,
         [Txn.read REG_IRQ_FLAGS hw.flags, Txn.write REG_IRQ_FLAGS IRQ_CLEAR_ALL],
         false, false⟩ := by
  simp [onDio0, hrx, hcrc, writeReg]

/-! ### The interrupt-routing invariant (claim C2) -/

theorem radioState_congr (s t : S) (h1 : t.inited = s.inited)
    (h2 : t.regs REG_OP_MODE = s.regs REG_OP_MODE) :
    radioState t = radioState s := by
  unfold radioState
  rw [h1, h2]

theorem mappingInv_congr (s t : S) (h1 : t.inited = s.inited)
    (h2 : t.regs REG_OP_MODE = s.regs REG_OP_MODE)
    (h3 : t.regs REG_DIO_MAPPING_1 = s.regs REG_DIO_MAPPING_1)
    (h : MappingInv s) : MappingInv t := by
  intro hm
  unfold dio0Mapping at hm
  rw [h3] at hm
  rw [radioState_congr s t h1 h2]
  exact h hm

theorem mappingInv_of_mapping_zero (s : S) (h : dio0Mapping s = 0) : MappingInv s := by
  intro hm
  rw [h] at hm
  exact absurd hm (by decide)

theorem mappingInv_of_transmitting (s : S)
    (h : radioState s = RadioState.Transmitting) : MappingInv s :=
  fun _ => h

/-- Every driver operation preserves the interrupt-routing invariant. -/
theorem mappingInv_step (s : S) (op : Op) (h : MappingInv s) :
    MappingInv (runOp s op).1 := by
  cases op with
  | opInit band v =>
      exact mappingInv_of_mapping_zero _ (init_mapping_zero s band v)
  | opSendString bytes =>
      show MappingInv (sendString s bytes).1
      rw [sendString_eq]
      by_cases hi : s.inited = true
      · exact mappingInv_of_transmitting _ (by
          simp [radioState, (sendBuffer_metrics s bytes).1, hi,
            sendBuffer_mode s bytes hi])
      · rw [show sendBuffer s bytes = (s, []) from by
          simp [sendBuffer, Bool.not_eq_true _ ▸ hi]]
        exact h
  | opSendBuffer buf =>
      show MappingInv (sendBuffer s buf).1
      by_cases hi : s.inited = true
      · exact mappingInv_of_transmitting _ (by
          simp [radioState, (sendBuffer_metrics s buf).1, hi,
            sendBuffer_mode s buf hi])
      · rw [show sendBuffer s buf = (s, []) from by
          simp [sendBuffer, Bool.not_eq_true _ ▸ hi]]
        exact h
  | opDio0 hw hrh =>
      show MappingInv (onDio0 s hw hrh).s
      by_cases htx : hw.flags &&& IRQ_TX_DONE ≠ 0
      · by_cases hrx : hw.flags &&& IRQ_RX_DONE ≠ 0
        · by_cases hcrc : hw.flags &&& IRQ_PAYLOAD_CRC_ERROR ≠ 0
          · rw [onDio0_crcError s hw hrh hrx hcrc]
            exact mappingInv_congr s _ rfl
              (by simp [writeReg, REG_OP_MODE, REG_IRQ_FLAGS])
              (by simp [writeReg, REG_DIO_MAPPING_1, REG_IRQ_FLAGS]) h
          · unfold onDio0
            rw [if_pos hrx, if_neg hcrc]
            exact mappingInv_of_mapping_zero _ (txDonePath_taken _ _ _ _ htx).2.1
        · unfold onDio0
          rw [if_neg hrx]
          exact mappingInv_of_mapping_zero _ (txDonePath_taken _ _ _ _ htx).2.1
      · rw [Ne, not_not] at htx
        by_cases hrx : hw.flags &&& IRQ_RX_DONE ≠ 0
        · by_cases hcrc : hw.flags &&& IRQ_PAYLOAD_CRC_ERROR ≠ 0
          · rw [onDio0_crcError s hw hrh hrx hcrc]
            exact mappingInv_congr s _ rfl
              (by simp [writeReg, REG_OP_MODE, REG_IRQ_FLAGS])
              (by simp [writeReg, REG_DIO_MAPPING_1, REG_IRQ_FLAGS]) h
          · unfold onDio0
            rw [if_pos hrx, if_neg hcrc,
              txDonePath_not_taken _ _ _ _ htx]
            exact mappingInv_congr s _ (rxPath_frame s hw).1
              (rxPath_frame s hw).2.1 (rxPath_frame s hw).2.2 h
        · unfold onDio0
          rw [if_neg hrx, txDonePath_not_taken _ _ _ _ htx]
          exact h
  | opSetTxPower d =>
      exact mappingInv_congr s _ (setTxPower_frame s d).1
        (setTxPower_frame s d).2.1 (setTxPower_frame s d).2.2.1 h
  | opSetSpreadingFactor sf =>
      exact mappingInv_congr s _ (setSpreadingFactor_frame s sf).1
        (setSpreadingFactor_frame s sf).2.1 (setSpreadingFactor_frame s sf).2.2.1 h
  | opSetBandwidth bw =>
      exact mappingInv_congr s _ (setBandwidth_frame s bw).1
        (setBandwidth_frame s bw).2.1 (setBandwidth_frame s bw).2.2.1 h
  | opSetCodingRate cr =>
      exact mappingInv_congr s _ (setCodingRate_frame s cr).1
        (setCodingRate_frame s cr).2.1 (setCodingRate_frame s cr).2.2.1 h
  | opSetSyncWord w =>
      exact mappingInv_congr s _ (setSyncWord_frame s w).1
        (setSyncWord_frame s w).2.1 (setSyncWord_frame s w).2.2.1 h
  | opChannelRssi v =>
      show MappingInv (channelRssi s v).2.1
      unfold channelRssi
      split <;> exact h

theorem mappingInv_runOps (ops : List Op) (s : S) (h : MappingInv s) :
    MappingInv (runOps s ops) := by
  induction ops generalizing s with
  | nil => exact h
  | cons op rest ih => exact ih _ (mappingInv_step s op h)

theorem mappingInv_reachable (s : S) (h : Reachable s) : MappingInv s := by
  obtain ⟨ops, rfl⟩ := h
  exact mappingInv_runOps ops S.init0
    (mappingInv_of_mapping_zero S.init0 (by decide))

/-! ### Preservation of the stored packet metrics (claim C10) -/

/-- Every operation other than a successful receive interrupt leaves the
stored RSSI/SNR values unchanged. -/
theorem metrics_step (s : S) (op : Op) (h : isSuccessfulRx op = false) :
    (runOp s op).1.lastRssi = s.lastRssi
  ∧ (runOp s op).1.lastSnrRaw = s.lastSnrRaw := by
  cases op with
  | opInit band v => exact init_metrics s band v
  | opSendString bytes =>
      show (sendString s bytes).1.lastRssi = s.lastRssi
        ∧ (sendString s bytes).1.lastSnrRaw = s.lastSnrRaw
      rw [sendString_eq]
      exact ⟨(sendBuffer_metrics s bytes).2.1, (sendBuffer_metrics s bytes).2.2⟩
  | opSendBuffer buf =>
      exact ⟨(sendBuffer_metrics s buf).2.1, (sendBuffer_metrics s buf).2.2⟩
  | opDio0 hw hrh =>
      show (onDio0 s hw hrh).s.lastRssi = s.lastRssi
        ∧ (onDio0 s hw hrh).s.lastSnrRaw = s.lastSnrRaw
      by_cases hrx : hw.flags &&& IRQ_RX_DONE ≠ 0
      · by_cases hcrc : hw.flags &&& IRQ_PAYLOAD_CRC_ERROR ≠ 0
        · rw [onDio0_crcError s hw hrh hrx hcrc]
          exact ⟨rfl, rfl⟩
        · exfalso
          rw [Ne, not_not] at hcrc
          simp [isSuccessfulRx, hrx, hcrc] at h
      · unfold onDio0
        rw [if_neg hrx]
        by_cases htx : hw.flags &&& IRQ_TX_DONE ≠ 0
        · exact ⟨(txDonePath_taken _ _ _ _ htx).2.2.2.1,
            (txDonePath_taken _ _ _ _ htx).2.2.2.2.1⟩
        · rw [Ne, not_not] at htx
          rw [txDonePath_not_taken _ _ _ _ htx]
          exact ⟨rfl, rfl⟩
  | opSetTxPower d =>
      exact ⟨(setTxPower_frame s d).2.2.2.1, (setTxPower_frame s d).2.2.2.2⟩
  | opSetSpreadingFactor sf =>
      exact ⟨(setSpreadingFactor_frame s sf).2.2.2.1,
        (setSpreadingFactor_frame s sf).2.2.2.2⟩
  | opSetBandwidth bw =>
      exact ⟨(setBandwidth_frame s bw).2.2.2.1, (setBandwidth_frame s bw).2.2.2.2⟩
  | opSetCodingRate cr =>
      exact ⟨(setCodingRate_frame s cr).2.2.2.1, (setCodingRate_frame s cr).2.2.2.2⟩
  | opSetSyncWord w =>
      exact ⟨(setSyncWord_frame s w).2.2.2.1, (setSyncWord_frame s w).2.2.2.2⟩
  | opChannelRssi v =>
      show (channelRssi s v).2.1.lastRssi = s.lastRssi
        ∧ (channelRssi s v).2.1.lastSnrRaw = s.lastSnrRaw
      unfold channelRssi
      split <;> exact ⟨rfl, rfl⟩

theorem metrics_runOps (ops : List Op) (s : S)
    (h : ∀ op ∈ ops, isSuccessfulRx op = false) :
    (runOps s ops).lastRssi = s.lastRssi
  ∧ (runOps s ops).lastSnrRaw = s.lastSnrRaw := by
  induction ops generalizing s with
  | nil => exact ⟨rfl, rfl⟩
  | cons op rest ih =>
      have h1 := metrics_step s op (h op (by simp))
      have h2 := ih (runOp s op).1 (fun o ho => h o (by simp [ho]))
      exact ⟨h2.1.trans h1.1, h2.2.trans h1.2⟩

/-! ### LDRO helper lemmas (claims C1 and C7) -/

theorem ldroNeeded_iff (sf bw : Nat) (hbw : bw < 10) :
    (ldroNeeded sf bw = true ↔ 2 ^ sf * 100 > 16 * BW_KHZ_X100.getD bw 0) := by
  have hs : (1 : Nat) <<< sf = 2 ^ sf := by rw [Nat.shiftLeft_eq, one_mul]
  interval_cases bw <;> simp [ldroNeeded, BW_KHZ_X100, hs]

/-- Shape of modem config 3 after `applyLdro`: bit 3 equals the LDRO
condition, the other bits are untouched. -/
theorem ldro_bit_shape (v : Nat) (c : Bool) :
    Nat.testBit (if c then v ||| 0x08 else v &&& 0xF7) 3 = c
  ∧ (if c then v ||| 0x08 else v &&& 0xF7) &&& 0xF7 = v &&& 0xF7 := by
  cases c
  · exact ⟨testBit3_andf7 v, andf7_and_f7 v⟩
  · exact ⟨testBit3_or8 v, or8_and_f7 v⟩

theorem setSpreadingFactor_config3 (s : S) (sf : Nat) (hi : s.inited = true) :
    (setSpreadingFactor s sf).1.regs REG_MODEM_CONFIG_3
      = (if ldroNeeded sf s.bwCode then s.regs REG_MODEM_CONFIG_3 ||| 0x08
         else s.regs REG_MODEM_CONFIG_3 &&& 0xF7) := by
  simp [setSpreadingFactor, hi, applyLdro, rmwReg, REG_MODEM_CONFIG_2, REG_MODEM_CONFIG_3]

theorem setSpreadingFactor_config2 (s : S) (sf : Nat) (hi : s.inited = true) :
    (setSpreadingFactor s sf).1.regs REG_MODEM_CONFIG_2
      = (s.regs REG_MODEM_CONFIG_2 &&& 0x0F) ||| (sf <<< 4) := by
  simp [setSpreadingFactor, hi, applyLdro, rmwReg, REG_MODEM_CONFIG_2, REG_MODEM_CONFIG_3]

theorem setSpreadingFactor_sf (s : S) (sf : Nat) (hi : s.inited = true) :
    (setSpreadingFactor s sf).1.sf = sf := by
  simp [setSpreadingFactor, hi, applyLdro]

theorem setBandwidth_config3 (s : S) (bw : Nat) (hi : s.inited = true) :
    (setBandwidth s bw).1.regs REG_MODEM_CONFIG_3
      = (if ldroNeeded s.sf bw then s.regs REG_MODEM_CONFIG_3 ||| 0x08
         else s.regs REG_MODEM_CONFIG_3 &&& 0xF7) := by
  simp [setBandwidth, hi, applyLdro, rmwReg, REG_MODEM_CONFIG_1, REG_MODEM_CONFIG_3]

/-! ### The claims -/

/-- C1: for every spreading factor sf in 7..12 and bandwidth code bw in the
ten defined steps, after `setSpreadingFactor(sf)` (with current bandwidth bw)
or `setBandwidth(bw)` (with current spreading factor sf) on an initialized
device, the LDRO bit (bit 3) of modem config 3 is set iff
`2^sf * 100 > 16 * BW_KHZ_X100[bw]`, and all other bits of that register are
unchanged. -/
theorem c1_ldro_recompute (s : S) (sf bw : Nat) (hi : s.inited = true)
    (h7 : 7 ≤ sf) (h12 : sf ≤ 12) (hbw : bw < 10) :
    (s.bwCode = bw →
      (Nat.testBit ((setSpreadingFactor s sf).1.regs REG_MODEM_CONFIG_3) 3 = true
        ↔ 2 ^ sf * 100 > 16 * BW_KHZ_X100.getD bw 0)
    ∧ (setSpreadingFactor s sf).1.regs REG_MODEM_CONFIG_3 &&& 0xF7
        = s.regs REG_MODEM_CONFIG_3 &&& 0xF7)
  ∧ (s.sf = sf →
      (Nat.testBit ((setBandwidth s bw).1.regs REG_MODEM_CONFIG_3) 3 = true
        ↔ 2 ^ sf * 100 > 16 * BW_KHZ_X100.getD bw 0)
    ∧ (setBandwidth s bw).1.regs REG_MODEM_CONFIG_3 &&& 0xF7
        = s.regs REG_MODEM_CONFIG_3 &&& 0xF7) := by
  constructor
  · intro hbwEq
    rw [setSpreadingFactor_config3 s sf hi, hbwEq]
    refine ⟨?_, (ldro_bit_shape _ _).2⟩
    rw [(ldro_bit_shape _ _).1]
    exact ldroNeeded_iff sf bw hbw
  · intro hsfEq
    rw [setBandwidth_config3 s bw hi, hsfEq]
    refine ⟨?_, (ldro_bit_shape _ _).2⟩
    rw [(ldro_bit_shape _ _).1]
    exact ldroNeeded_iff sf bw hbw

/-- Witness for C1 at the boundary cases: after init (SF7, BW 125 kHz code 7),
`setSpreadingFactor 11` turns the LDRO bit on and `setSpreadingFactor 10`
leaves it off. -/
theorem c1_ldro_recompute_witness :
    sInit.inited = true ∧ sInit.bwCode = 7
  ∧ Nat.testBit ((setSpreadingFactor sInit 11).1.regs REG_MODEM_CONFIG_3) 3 = true
  ∧ Nat.testBit ((setSpreadingFactor sInit 10).1.regs REG_MODEM_CONFIG_3) 3 = false := by
  refine ⟨by decide, by decide, ?_, ?_⟩
  · exact ((c1_ldro_recompute sInit 11 7 (by decide) (by decide) (by decide)
      (by decide)).1 (by decide)).1.mpr (by decide)
  · have h := ((c1_ldro_recompute sInit 10 7 (by decide) (by decide) (by decide)
      (by decide)).1 (by decide)).1
    rcases hb : Nat.testBit ((setSpreadingFactor sInit 10).1.regs REG_MODEM_CONFIG_3) 3
    · rfl
    · exact absurd (h.mp hb) (by decide)

/-- C2: in every reachable driver state the DIO0 routing selects TxDone
(value 1) only while the radio state is Transmitting; and whenever the
handler's TxDone branch runs, the write that resets the routing to RxDone
immediately precedes the op-mode write that re-enters continuous receive. -/
theorem c2_interrupt_routing :
    (∀ s : S, Reachable s → dio0Mapping s = 1 → radioState s = RadioState.Transmitting)
  ∧ (∀ (s : S) (hw : HwRx) (hrh : Bool),
      hw.flags &&& IRQ_TX_DONE ≠ 0 →
      ¬(hw.flags &&& IRQ_RX_DONE ≠ 0 ∧ hw.flags &&& IRQ_PAYLOAD_CRC_ERROR ≠ 0) →
      ∃ pre w, (onDio0 s hw hrh).log
          = pre ++ [Txn.write REG_DIO_MAPPING_1 w,
                    Txn.write REG_OP_MODE (MODE_LONG_RANGE ||| MODE_RX_CONTINUOUS)]
        ∧ (w >>> 6) &&& 0x03 = 0) := by
  constructor
  · exact fun s h => mappingInv_reachable s h
  · intro s hw hrh htx hnot
    by_cases hrx : hw.flags &&& IRQ_RX_DONE ≠ 0
    · have hcrc : ¬ hw.flags &&& IRQ_PAYLOAD_CRC_ERROR ≠ 0 := fun hc => hnot ⟨hrx, hc⟩
      unfold onDio0
      rw [if_pos hrx, if_neg hcrc]
      refine ⟨([Txn.read REG_IRQ_FLAGS hw.flags] ++ (rxPath s hw).2)
          ++ [Txn.write REG_IRQ_FLAGS IRQ_CLEAR_ALL,
              Txn.read REG_DIO_MAPPING_1 ((rxPath s hw).1.regs REG_DIO_MAPPING_1)],
        ((rxPath s hw).1.regs REG_DIO_MAPPING_1 &&& 0x3F) ||| ((0 &&& 0x03) <<< 6),
        ?_, mapping_bits_zero _⟩
      rw [txDonePath_log _ _ _ _ htx]
      simp
    · unfold onDio0
      rw [if_neg hrx]
      refine ⟨[Txn.read REG_IRQ_FLAGS hw.flags]
          ++ [Txn.write REG_IRQ_FLAGS IRQ_CLEAR_ALL,
              Txn.read REG_DIO_MAPPING_1 (s.regs REG_DIO_MAPPING_1)],
        (s.regs REG_DIO_MAPPING_1 &&& 0x3F) ||| ((0 &&& 0x03) <<< 6),
        ?_, mapping_bits_zero _⟩
      rw [txDonePath_log _ _ _ _ htx]
      simp

/-- Witness for C2: the post-send state is reachable, has routing TxDone and
is Transmitting; and a concrete TxDone interrupt shows the routing-reset
write immediately before the receive-mode write. -/
theorem c2_interrupt_routing_witness :
    Reachable sTx ∧ dio0Mapping sTx = 1
  ∧ radioState sTx = RadioState.Transmitting
  ∧ (∃ pre w, (onDio0 sTx hwTxOnly true).log
        = pre ++ [Txn.write REG_DIO_MAPPING_1 w,
                  Txn.write REG_OP_MODE (MODE_LONG_RANGE ||| MODE_RX_CONTINUOUS)]
      ∧ (w >>> 6) &&& 0x03 = 0) := by
  have hr : Reachable sTx :=
    ⟨[Op.opInit Band.EU868 0x12, Op.opSendBuffer [1, 2, 3]], rfl⟩
  exact ⟨hr, by decide, c2_interrupt_routing.1 sTx hr (by decide),
    c2_interrupt_routing.2 sTx hwTxOnly true (by decide) (by decide)⟩

/-- C3 counterexample: a status byte with TxDone, RxDone and CRC-error all
set (0x68) takes the CRC early return, so the transmit-completion branch
does not run even though the TxDone bit is set: no send event is raised,
the op-mode register stays in transmit, the routing stays TxDone. -/
theorem c3_counterexample :
    hwCrcTx.flags &&& IRQ_TX_DONE ≠ 0
  ∧ (onDio0 sTx hwCrcTx true).sentEventRaised = false
  ∧ (onDio0 sTx hwCrcTx true).s.regs REG_OP_MODE = MODE_LONG_RANGE ||| MODE_TX
  ∧ dio0Mapping (onDio0 sTx hwCrcTx true).s = 1 := by
  refine ⟨by decide, by decide, by decide, by decide⟩

/-- C3 (amended): whenever the TxDone bit is set and the handler did not
take the RxDone-with-CRC-error early return, the transmit-completion branch
runs — routing reset to RxDone, op mode back to continuous receive, send
event raised — regardless of whether the RxDone bit is also set. -/
theorem c3_txdone_branch (s : S) (hw : HwRx) (hrh : Bool)
    (htx : hw.flags &&& IRQ_TX_DONE ≠ 0)
    (hnot : ¬(hw.flags &&& IRQ_RX_DONE ≠ 0 ∧ hw.flags &&& IRQ_PAYLOAD_CRC_ERROR ≠ 0)) :
    (onDio0 s hw hrh).sentEventRaised = true
  ∧ dio0Mapping (onDio0 s hw hrh).s = 0
  ∧ (onDio0 s hw hrh).s.regs REG_OP_MODE = MODE_LONG_RANGE ||| MODE_RX_CONTINUOUS := by
  by_cases hrx : hw.flags &&& IRQ_RX_DONE ≠ 0
  · have hcrc : ¬ hw.flags &&& IRQ_PAYLOAD_CRC_ERROR ≠ 0 := fun hc => hnot ⟨hrx, hc⟩
    unfold onDio0
    rw [if_pos hrx, if_neg hcrc]
    exact ⟨(txDonePath_taken _ _ _ _ htx).2.2.2.2.2.2,
      (txDonePath_taken _ _ _ _ htx).2.1, (txDonePath_taken _ _ _ _ htx).1⟩
  · unfold onDio0
    rw [if_neg hrx]
    exact ⟨(txDonePath_taken _ _ _ _ htx).2.2.2.2.2.2,
      (txDonePath_taken _ _ _ _ htx).2.1, (txDonePath_taken _ _ _ _ htx).1⟩

/-- Witness for the amended C3: RxDone and TxDone both set without CRC
error (0x48) on the transmitting state does run the transmit branch. -/
theorem c3_txdone_branch_witness :
    hwRxTx.flags &&& IRQ_TX_DONE ≠ 0
  ∧ (onDio0 sTx hwRxTx true).sentEventRaised = true
  ∧ dio0Mapping (onDio0 sTx hwRxTx true).s = 0
  ∧ (onDio0 sTx hwRxTx true).s.regs REG_OP_MODE
      = MODE_LONG_RANGE ||| MODE_RX_CONTINUOUS := by
  have h := c3_txdone_branch sTx hwRxTx true (by decide) (by decide)
  exact ⟨by decide, h.1, h.2.1, h.2.2⟩

/-- C4: a receive-complete interrupt whose status byte also has the
payload-CRC-error bit set clears the status flags and discards the packet —
the log is exactly the flags read and the clear-all write (in particular no
FIFO byte is read), no receive handler is invoked, and the stored RSSI/SNR
values are unchanged. -/
theorem c4_crc_discard (s : S) (hw : HwRx) (hrh : Bool)
    (hrx : hw.flags &&& IRQ_RX_DONE ≠ 0)
    (hcrc : hw.flags &&& IRQ_PAYLOAD_CRC_ERROR ≠ 0) :
    (onDio0 s hw hrh).s.lastRssi = s.lastRssi
  ∧ (onDio0 s hw hrh).s.lastSnrRaw = s.lastSnrRaw
  ∧ (onDio0 s hw hrh).rxHandlerInvoked = false
  ∧ (onDio0 s hw hrh).log
      = [Txn.read REG_IRQ_FLAGS hw.flags, Txn.write REG_IRQ_FLAGS IRQ_CLEAR_ALL]
  ∧ (∀ v : Nat, Txn.read REG_FIFO v ∉ (onDio0 s hw hrh).log) := by
  rw [onDio0_crcError s hw hrh hrx hcrc]
  refine ⟨rfl, rfl, rfl, rfl, ?_⟩
  intro v
  simp [REG_FIFO, REG_IRQ_FLAGS]

/-- Witness for C4 at a concrete corrupted packet (flags 0x60) arriving in
the receiving state. -/
theorem c4_crc_discard_witness :
    hwRxCrc.flags &&& IRQ_RX_DONE ≠ 0
  ∧ (onDio0 sInit hwRxCrc true).s.lastRssi = sInit.lastRssi
  ∧ (onDio0 sInit hwRxCrc true).s.lastSnrRaw = sInit.lastSnrRaw
  ∧ (onDio0 sInit hwRxCrc true).rxHandlerInvoked = false
  ∧ (onDio0 sInit hwRxCrc true).log
      = [Txn.read REG_IRQ_FLAGS hwRxCrc.flags, Txn.write REG_IRQ_FLAGS IRQ_CLEAR_ALL] := by
  have h := c4_crc_discard sInit hwRxCrc true (by decide) (by decide)
  exact ⟨by decide, h.1, h.2.1, h.2.2.1, h.2.2.2.1⟩

/-- C5: every configuration or send operation called before init has
succeeded returns normally with no register transaction and the driver
state unchanged. -/
theorem c5_noop_before_init (s : S) (h : s.inited = false)
    (bytes buf : List Nat) (dBm : Int) (sf bw cr w : Nat) :
    sendString s bytes = (s, [])
  ∧ sendBuffer s buf = (s, [])
  ∧ setTxPower s dBm = (s, [])
  ∧ setSpreadingFactor s sf = (s, [])
  ∧ setBandwidth s bw = (s, [])
  ∧ setCodingRate s cr = (s, [])
  ∧ setSyncWord s w = (s, []) := by
  refine ⟨?_, ?_, ?_, ?_, ?_, ?_, ?_⟩ <;>
    simp [sendString, sendBuffer, setTxPower, setSpreadingFactor, setBandwidth,
      setCodingRate, setSyncWord, h]

/-- Witness for C5 at the never-initialized module-load state. -/
theorem c5_noop_before_init_witness :
    S.init0.inited = false
  ∧ sendString S.init0 [72, 105] = (S.init0, [])
  ∧ sendBuffer S.init0 [1, 2, 3] = (S.init0, [])
  ∧ setTxPower S.init0 17 = (S.init0, [])
  ∧ setSpreadingFactor S.init0 9 = (S.init0, [])
  ∧ setBandwidth S.init0 8 = (S.init0, [])
  ∧ setCodingRate S.init0 2 = (S.init0, [])
  ∧ setSyncWord S.init0 0x34 = (S.init0, []) := by
  have h := c5_noop_before_init S.init0 rfl [72, 105] [1, 2, 3] 17 9 8 2 0x34
  exact ⟨rfl, h.1, h.2.1, h.2.2.1, h.2.2.2.1, h.2.2.2.2.1, h.2.2.2.2.2.1,
    h.2.2.2.2.2.2⟩

/-- C6: `setTxPower` on an initialized device: requesting exactly 20 selects
the high-power path (PA_DAC 0x87, different from the 0x84 written for 19);
every other request writes the standard path with the power field
`dBm − 2` clamped to 0–15 and PA_DAC 0x84; requesting 1 yields the same
register settings as requesting 2. -/
theorem c6_tx_power (s : S) (dBm : Int) (hi : s.inited = true) :
    (dBm = 20 →
      (setTxPower s dBm).1.regs REG_PA_CONFIG = 0x80 ||| 0x0F
    ∧ (setTxPower s dBm).1.regs REG_PA_DAC = 0x87)
  ∧ (dBm ≠ 20 →
      (setTxPower s dBm).1.regs REG_PA_CONFIG
        = 0x80 ||| (max 0 (min 15 (dBm - 2))).toNat
    ∧ (setTxPower s dBm).1.regs REG_PA_DAC = 0x84)
  ∧ (setTxPower s 20).1.regs REG_PA_DAC ≠ (setTxPower s 19).1.regs REG_PA_DAC
  ∧ (setTxPower s 1).1.regs REG_PA_CONFIG = (setTxPower s 2).1.regs REG_PA_CONFIG
  ∧ (setTxPower s 1).1.regs REG_PA_DAC = (setTxPower s 2).1.regs REG_PA_DAC := by
  refine ⟨?_, ?_, ?_, ?_, ?_⟩
  · intro h20
    subst h20
    simp [setTxPower, hi, REG_PA_CONFIG, REG_PA_DAC]
  · intro h20
    rw [show setTxPower s dBm
        = seq (writeReg s REG_PA_CONFIG (0x80 ||| (max 0 (min 15 (dBm - 2))).toNat))
            (fun s1 => writeReg s1 REG_PA_DAC 0x84) from by
      simp [setTxPower, hi, h20]]
    simp [REG_PA_CONFIG, REG_PA_DAC]
  · simp [setTxPower, hi, REG_PA_CONFIG, REG_PA_DAC]
  · simp [setTxPower, hi, REG_PA_CONFIG, REG_PA_DAC]
  · simp [setTxPower, hi, REG_PA_CONFIG, REG_PA_DAC]

/-- Witness for C6 on the initialized device: the concrete register bytes
for requests 20, 19, 1 and 2. -/
theorem c6_tx_power_witness :
    sInit.inited = true
  ∧ (setTxPower sInit 20).1.regs REG_PA_DAC = 0x87
  ∧ (setTxPower sInit 19).1.regs REG_PA_CONFIG
      = 0x80 ||| (max 0 (min 15 ((19 : Int) - 2))).toNat
  ∧ (setTxPower sInit 19).1.regs REG_PA_DAC = 0x84
  ∧ (setTxPower sInit 20).1.regs REG_PA_DAC ≠ (setTxPower sInit 19).1.regs REG_PA_DAC
  ∧ (setTxPower sInit 1).1.regs REG_PA_CONFIG = (setTxPower sInit 2).1.regs REG_PA_CONFIG := by
  have h := c6_tx_power sInit 20 (by decide)
  have h19 := (c6_tx_power sInit 19 (by decide)).2.1 (by decide)
  exact ⟨by decide, (h.1 rfl).2, h19.1, h19.2, h.2.2.1, h.2.2.2.1⟩

/-- C7 counterexample: `setSpreadingFactor` performs no runtime range
validation — the out-of-range value 13 on an initialized device is applied:
the upper nibble of modem config 2 becomes 13, the stored spreading factor
becomes 13, and register transactions are performed. -/
theorem c7_counterexample :
    sInit.inited = true
  ∧ (setSpreadingFactor sInit 13).1.regs REG_MODEM_CONFIG_2 >>> 4 = 13
  ∧ (setSpreadingFactor sInit 13).1.sf = 13
  ∧ (setSpreadingFactor sInit 13).2 ≠ ([] : List Txn) := by
  refine ⟨by decide, by decide, by decide, by decide⟩

/-- C7 (amended): for sf in the SpreadingFactor enum range 7..12,
`setSpreadingFactor` on an initialized device writes sf into the upper
nibble of modem config 2 preserving the lower nibble, then recomputes the
LDRO bit; the 7..12 restriction is enforced only by the enum type, not by a
runtime check in the function. -/
theorem c7_sf_write (s : S) (sf : Nat) (hi : s.inited = true)
    (h7 : 7 ≤ sf) (h12 : sf ≤ 12) :
    (setSpreadingFactor s sf).1.regs REG_MODEM_CONFIG_2 >>> 4 = sf
  ∧ (setSpreadingFactor s sf).1.regs REG_MODEM_CONFIG_2 &&& 0x0F
      = s.regs REG_MODEM_CONFIG_2 &&& 0x0F
  ∧ Nat.testBit ((setSpreadingFactor s sf).1.regs REG_MODEM_CONFIG_3) 3
      = ldroNeeded sf s.bwCode
  ∧ (setSpreadingFactor s sf).1.regs REG_MODEM_CONFIG_3 &&& 0xF7
      = s.regs REG_MODEM_CONFIG_3 &&& 0xF7
  ∧ (setSpreadingFactor s sf).1.sf = sf := by
  refine ⟨?_, ?_, ?_, ?_, setSpreadingFactor_sf s sf hi⟩
  · rw [setSpreadingFactor_config2 s sf hi]
    exact nibble_hi _ sf
  · rw [setSpreadingFactor_config2 s sf hi]
    exact nibble_lo _ sf
  · rw [setSpreadingFactor_config3 s sf hi]
    exact (ldro_bit_shape _ _).1
  · rw [setSpreadingFactor_config3 s sf hi]
    exact (ldro_bit_shape _ _).2

/-- Witness for the amended C7 at sf = 12 on the initialized device. -/
theorem c7_sf_write_witness :
    sInit.inited = true
  ∧ (setSpreadingFactor sInit 12).1.regs REG_MODEM_CONFIG_2 >>> 4 = 12
  ∧ (setSpreadingFactor sInit 12).1.regs REG_MODEM_CONFIG_2 &&& 0x0F
      = sInit.regs REG_MODEM_CONFIG_2 &&& 0x0F
  ∧ Nat.testBit ((setSpreadingFactor sInit 12).1.regs REG_MODEM_CONFIG_3) 3
      = ldroNeeded 12 sInit.bwCode
  ∧ (setSpreadingFactor sInit 12).1.sf = 12 := by
  have h := c7_sf_write sInit 12 (by decide) (by decide) (by decide)
  exact ⟨by decide, h.1, h.2.1, h.2.2.1, h.2.2.2.2⟩

/-- C8: the frequency word written during init is the exact integer
`floor(freqHz * 2^19 / 32e6)`, split into three register bytes
most-significant first, matching the known triples for 868.0 MHz
(0xD9, 0x00, 0x00) and 915.0 MHz (0xE4, 0xC0, 0x00). -/
theorem c8_frequency_word :
    ((init S.init0 Band.EU868 0x12).1.regs REG_FRF_MSB,
     (init S.init0 Band.EU868 0x12).1.regs REG_FRF_MID,
     (init S.init0 Band.EU868 0x12).1.regs REG_FRF_LSB) = (0xD9, 0x00, 0x00)
  ∧ ((init S.init0 Band.AU915 0x12).1.regs REG_FRF_MSB,
     (init S.init0 Band.AU915 0x12).1.regs REG_FRF_MID,
     (init S.init0 Band.AU915 0x12).1.regs REG_FRF_LSB) = (0xE4, 0xC0, 0x00)
  ∧ mhzToFrf 868 = 868 * 1000000 * 2 ^ 19 / 32000000
  ∧ mhzToFrf 915 = 915 * 1000000 * 2 ^ 19 / 32000000
  ∧ 0xD9 * 2 ^ 16 + 0x00 * 2 ^ 8 + 0x00 = mhzToFrf 868
  ∧ 0xE4 * 2 ^ 16 + 0xC0 * 2 ^ 8 + 0x00 = mhzToFrf 915 := by
  refine ⟨by decide, by decide, by decide, by decide, by decide, by decide⟩

/-- C9: the last-SNR accessor decodes the stored raw byte as a
two's-complement signed 8-bit value divided by 4, returns 0 before any
packet was received, and decodes 0xFF to −0.25 and 0x08 to 2.0. -/
theorem c9_snr_decode (s : S) (h : s.lastSnrRaw < 256) :
    (receivedSnr s).1 = ((twosComplement8 s.lastSnrRaw : Int) : Rat) / 4
  ∧ (receivedSnr S.init0).1 = 0
  ∧ snrDecode 0xFF = -(1 / 4)
  ∧ snrDecode 0x08 = 2 := by
  refine ⟨?_, by norm_num [receivedSnr, snrDecode, S.init0],
    by norm_num [snrDecode], by norm_num [snrDecode]⟩
  have key : (if s.lastSnrRaw > 127 then (s.lastSnrRaw : Int) - 256
              else (s.lastSnrRaw : Int)) = twosComplement8 s.lastSnrRaw := by
    unfold twosComplement8
    split <;> omega
  unfold receivedSnr snrDecode
  rw [key]

/-- Witness for C9 at the module-load state (raw byte 0). -/
theorem c9_snr_decode_witness :
    S.init0.lastSnrRaw < 256
  ∧ (receivedSnr S.init0).1
      = ((twosComplement8 S.init0.lastSnrRaw : Int) : Rat) / 4 := by
  exact ⟨by decide, (c9_snr_decode S.init0 (by decide)).1⟩

/-- C10: the last-packet metric accessors touch nothing — they perform no
register transaction and leave the state unchanged in every state — and
they return 0 after any operation sequence containing no successful
receive interrupt. -/
theorem c10_metric_accessors :
    (∀ s : S, (receivedSignalStrength s).2.1 = s
            ∧ (receivedSignalStrength s).2.2 = ([] : List Txn)
            ∧ (receivedSnr s).2.1 = s
            ∧ (receivedSnr s).2.2 = ([] : List Txn))
  ∧ (∀ ops : List Op, (∀ op ∈ ops, isSuccessfulRx op = false) →
      (receivedSignalStrength (runOps S.init0 ops)).1 = 0
    ∧ (receivedSnr (runOps S.init0 ops)).1 = 0) := by
  refine ⟨fun s => ⟨rfl, rfl, rfl, rfl⟩, ?_⟩
  intro ops h
  have hm := metrics_runOps ops S.init0 h
  constructor
  · show (runOps S.init0 ops).lastRssi = 0
    rw [hm.1]
    rfl
  · show snrDecode (runOps S.init0 ops).lastSnrRaw = 0
    rw [hm.2]
    norm_num [snrDecode, S.init0]

/-- Witness for C10: a run with init, a send, a CRC-error receive and a
config call still reports 0 for both metrics; and the accessors leave a
concrete state untouched with an empty log. -/
theorem c10_metric_accessors_witness :
    (∀ op ∈ [Op.opInit Band.EU868 0x12, Op.opSendBuffer [1, 2, 3],
             Op.opDio0 hwRxCrc true, Op.opSetTxPower 17],
        isSuccessfulRx op = false)
  ∧ (receivedSignalStrength (runOps S.init0
        [Op.opInit Band.EU868 0x12, Op.opSendBuffer [1, 2, 3],
         Op.opDio0 hwRxCrc true, Op.opSetTxPower 17])).1 = 0
  ∧ (receivedSnr (runOps S.init0
        [Op.opInit Band.EU868 0x12, Op.opSendBuffer [1, 2, 3],
         Op.opDio0 hwRxCrc true, Op.opSetTxPower 17])).1 = 0
  ∧ (receivedSignalStrength sTx).2.1 = sTx
  ∧ (receivedSnr sTx).2.2 = ([] : List Txn) := by
  have h := c10_metric_accessors.2
    [Op.opInit Band.EU868 0x12, Op.opSendBuffer [1, 2, 3],
     Op.opDio0 hwRxCrc true, Op.opSetTxPower 17] (by decide)
  exact ⟨by decide, h.1, h.2, (c10_metric_accessors.1 sTx).1,
    (c10_metric_accessors.1 sTx).2.2.2⟩

end RFM95W
